import Mathlib

/-!
Verification of the MiniVenmo payment ledger (code_challenge.py).

Shallow embedding conventions:
* Python floats (balances, amounts) are modelled as exact rationals `ℚ`.
* Python exceptions become an explicit `Err` sum type; a method that can
  raise is embedded as a state-passing function returning the post-state
  together with `Except Err result`, translated statement by statement so
  that each raise site returns the state reached at that point.
* `User` objects are compared by username (the source compares objects by
  identity; usernames are unique per ledger, so identity and username
  equality coincide on reachable object graphs), hence `friends` is a
  `Finset String` of usernames, matching Python set semantics.
* `Payment.id` (a fresh uuid) is omitted: it is unused by every rendered
  string and every claim.
-/

namespace MiniVenmoSpec

/-- The distinct raise sites of the source, by exception class and message.
`usernameNotValid`/`usernameTaken` are `UsernameException`s, the three
payment errors are `PaymentException`s, the two card errors are
`CreditCardException`s. -/
inductive Err where
  | usernameNotValid
  | usernameTaken
  | selfPayment
  | invalidAmount
  | insufficientFunds
  | duplicateCard
  | invalidCard
deriving DecidableEq, Repr

/-- Python truthiness of an `str | None` value: `None` and `""` are falsy. -/
def optStrTruthy : Option String → Bool
  | none => false
  | some s => s != ""

/-- A character accepted by the source character class `[A-Za-z0-9_\\-]`
(the raw string `r"...\\-..."` puts a literal backslash in the class). -/
def isSourceUsernameChar (c : Char) : Bool :=
  (('A' ≤ c && c ≤ 'Z') || ('a' ≤ c && c ≤ 'z') || ('0' ≤ c && c ≤ '9')
    || c == '_' || c == '\\' || c == '-')

/-- 4 to 15 characters, all from the source character class. -/
def matchesSourceCore (l : List Char) : Bool :=
  decide (4 ≤ l.length) && decide (l.length ≤ 15) && l.all isSourceUsernameChar

/-- `User._is_valid_username`: `bool(re.match(r"^[A-Za-z0-9_\\-]{4,15}$", s))`.
Python `re` semantics: `$` (without MULTILINE) matches at the end of the
string or just before a newline at the end of the string. -/
def is_valid_username (s : String) : Bool :=
  matchesSourceCore s.data ||
    (match s.data.getLast? with
     | some c => c == '\n' && matchesSourceCore s.data.dropLast
     | none => false)

/-- The username pattern as the spec states it: `^[A-Za-z0-9_-]{4,15}$`,
class exactly letters, digits, underscore, hyphen (spec section 4.1,
which also demands that metacharacters not be double-escaped). Stated
from the SPEC for comparison with `is_valid_username` from the source. -/
def specUsernameChar (c : Char) : Bool :=
  (('A' ≤ c && c ≤ 'Z') || ('a' ≤ c && c ≤ 'z') || ('0' ≤ c && c ≤ '9')
    || c == '_' || c == '-')

/-- Spec-side username predicate (see `specUsernameChar`). -/
def spec_is_valid_username (s : String) : Bool :=
  decide (4 ≤ s.data.length) && decide (s.data.length ≤ 15)
    && s.data.all specUsernameChar

/-- `User._is_valid_credit_card`: membership in the fixed allow-list. -/
def is_valid_credit_card (n : String) : Bool :=
  n == "4111111111111111" || n == "4242424242424242"

/-- The `User` entity: balance and amounts as exact rationals, friends as
a set of usernames, feed as an ordered list of rendered strings. -/
structure User where
  username : String
  credit_card_number : Option String
  balance : ℚ
  friends : Finset String
  activity_feed : List String
deriving DecidableEq

/-- An immutable `Payment` record (uuid omitted, see module docstring).
The source stores actor/target references and renders their usernames;
rendering happens immediately after construction, so the usernames are
captured at construction time. -/
structure Payment where
  amount : ℚ
  actor_username : String
  target_username : String
  note : String
deriving DecidableEq

/-- Round to the nearest integer, ties to the even integer — the rounding
Python string formatting applies to the decimal expansion. -/
def roundHalfEven (q : ℚ) : ℤ :=
  let f : ℤ := ⌊q⌋
  if q - f < 1/2 then f
  else if q - f > 1/2 then f + 1
  else if Even f then f else f + 1

/-- Two-digit zero padding of a natural number below 100. -/
def pad2 (n : Nat) : String :=
  if n < 10 then "0" ++ Nat.repr n else Nat.repr n

/-- Python `f"{x:.2f}"` on a nonnegative amount, on the exact rational. -/
def formatTwoDec (q : ℚ) : String :=
  let c : Nat := (roundHalfEven (q * 100)).toNat
  Nat.repr (c / 100) ++ "." ++ pad2 (c % 100)

/-- `Payment.__str__`:
`f"{actor.username} paid {target.username} ${amount:.2f} for {note}"`. -/
def paymentStr (p : Payment) : String :=
  p.actor_username ++ " paid " ++ p.target_username ++ " $"
    ++ formatTwoDec p.amount ++ " for " ++ p.note

/-- `User.__init__`: fields initialised, then the username validated;
on failure the object is discarded with the exception. -/
def mkUser (username : String) : Except Err User :=
  if is_valid_username username then
    .ok { username := username, credit_card_number := none, balance := 0,
          friends := ∅, activity_feed := [] }
  else
    .error .usernameNotValid

/-- `User.retrieve_feed`: returns the activity feed directly. -/
def retrieve_feed (u : User) : List String :=
  u.activity_feed

/-- `User.add_to_balance`: unconditional increment. -/
def add_to_balance (u : User) (amount : ℚ) : User :=
  { u with balance := u.balance + amount }

/-- The friendship feed message, usernames in the order (self, other). -/
def friendMessage (self new_friend : User) : String :=
  self.username ++ " and " ++ new_friend.username ++ " are now friends."

/-- `User.add_friend` on two distinct users (self, new_friend): a no-op
when new_friend is already in the friend set; otherwise inserts the
symmetric link and appends the same message to both feeds. -/
def add_friend (self new_friend : User) : User × User :=
  if new_friend.username ∈ self.friends then (self, new_friend)
  else
    let message : String := friendMessage self new_friend
    let self2 : User :=
      { self with friends := insert new_friend.username self.friends,
                  activity_feed := self.activity_feed ++ [message] }
    let friend2 : User :=
      { new_friend with friends := insert self.username new_friend.friends,
                        activity_feed := new_friend.activity_feed ++ [message] }
    (self2, friend2)

/-- `User.add_credit_card`: duplicate check (`is not None`) strictly before
the validity check. -/
def add_credit_card (u : User) (credit_card_number : String) :
    User × Except Err Unit :=
  match u.credit_card_number with
  | some _ => (u, .error .duplicateCard)
  | none =>
      if is_valid_credit_card credit_card_number then
        ({ u with credit_card_number := some credit_card_number }, .ok ())
      else
        (u, .error .invalidCard)

/-- `User.pay_with_balance`: decrement self, construct the payment,
credit the target, append the rendered string to both feeds. -/
def pay_with_balance (self target : User) (amount : ℚ) (note : String) :
    (User × User) × Payment :=
  let self := { self with balance := self.balance - amount }
  let payment : Payment :=
    { amount := amount, actor_username := self.username,
      target_username := target.username, note := note }
  let target := add_to_balance target amount
  let self := { self with activity_feed := self.activity_feed ++ [paymentStr payment] }
  let target := { target with activity_feed := target.activity_feed ++ [paymentStr payment] }
  ((self, target), payment)

/-- `User.pay_with_card`: charge the card (external stub, no state effect),
construct the payment, credit the target unless it is the payer (the
identity guard `target != self`, rendered as username inequality — object
identity coincides with username equality on reachable graphs), append
the rendered string to both feeds. The payer balance is untouched. -/
def pay_with_card (self target : User) (amount : ℚ) (note : String) :
    (User × User) × Payment :=
  let payment : Payment :=
    { amount := amount, actor_username := self.username,
      target_username := target.username, note := note }
  let target :=
    if target.username ≠ self.username then add_to_balance target amount
    else target
  let self := { self with activity_feed := self.activity_feed ++ [paymentStr payment] }
  let target := { target with activity_feed := target.activity_feed ++ [paymentStr payment] }
  ((self, target), payment)

/-- `User.pay`: self-payment check, then amount check, then funding
resolution — balance path if `balance >= amount`, else card path if the
card field is truthy, else the insufficient-funds error. Each raise site
returns the (unchanged) pair state reached at that point. -/
def pay (self target : User) (amount : ℚ) (note : String) :
    (User × User) × Except Err Payment :=
  if self.username = target.username then
    ((self, target), .error .selfPayment)
  else if amount ≤ 0 then
    ((self, target), .error .invalidAmount)
  else if self.balance ≥ amount then
    let r := pay_with_balance self target amount note
    (r.1, .ok r.2)
  else if optStrTruthy self.credit_card_number then
    let r := pay_with_card self target amount note
    (r.1, .ok r.2)
  else
    ((self, target), .error .insufficientFunds)

/-- The ledger registry: username-keyed user map, modelled as an
association list in insertion order. -/
abbrev Registry := List (String × User)

/-- `MiniVenmo.create_user`: duplicate-username check, user construction
(which validates the username), unconditional balance seeding, optional
card attachment (Python truthiness on the argument), and registration
as the final statement — so any raise leaves the registry unchanged. -/
def create_user (users : Registry) (username : String) (balance : ℚ)
    (credit_card_number : Option String) : Registry × Except Err User :=
  if users.any (fun kv => kv.1 = username) then
    (users, .error .usernameTaken)
  else
    match mkUser username with
    | .error e => (users, .error e)
    | .ok u =>
        let u := add_to_balance u balance
        if optStrTruthy credit_card_number then
          match add_credit_card u (credit_card_number.getD "") with
          | (u2, .ok _) => (users ++ [(username, u2)], .ok u2)
          | (_, .error e) => (users, .error e)
        else
          (users ++ [(username, u)], .ok u)

/-- A sample user mirroring the test fixture Bobby: balance 5, first
allow-listed card. -/
def sampleBobby : User :=
  { username := "Bobby", credit_card_number := some "4111111111111111",
    balance := 5, friends := ∅, activity_feed := [] }

/-- A sample user mirroring the test fixture Carol: balance 10, second
allow-listed card. -/
def sampleCarol : User :=
  { username := "Carol", credit_card_number := some "4242424242424242",
    balance := 10, friends := ∅, activity_feed := [] }

/-- A sample user with no credit card and zero balance. -/
def sampleDana : User :=
  { username := "Dana", credit_card_number := none,
    balance := 0, friends := ∅, activity_feed := [] }

lemma pad2_two_digit_chars :
    ∀ k : Nat, k < 100 →
      (pad2 k).length = 2 ∧ (pad2 k).data.all Char.isDigit = true := by
  decide

lemma optStrTruthy_some_of_ne {s : String} (h : s ≠ "") :
    optStrTruthy (some s) = true := by
  simp [optStrTruthy, h]

/-- C6: paying oneself always fails with the self-payment error, for every
amount (positive or not) and every balance/card state: the username check
is the first statement of `pay`, before the amount check and any mutation. -/
theorem pay_self_always_selfPaymentError (u : User) (m : ℚ) (n : String) :
    pay u u m n = ((u, u), .error .selfPayment) := by
  rw [pay, if_pos rfl]

/-- C4: whenever `pay` returns an error, the pair state is returned exactly
as it was passed in: balances, feeds, friend sets and cards of both users
are unchanged, because all validations precede any mutation. -/
theorem pay_error_no_mutation (a t : User) (m : ℚ) (n : String) (e : Err)
    (h : (pay a t m n).2 = .error e) :
    (pay a t m n).1 = (a, t) := by
  rw [pay] at h ⊢
  split_ifs at h ⊢ <;> simp_all

/-- C4 witness: a self-payment attempt errors and mutates nothing. -/
theorem pay_error_no_mutation_witness :
    (pay sampleBobby sampleBobby 5 "x").2 = .error .selfPayment
    ∧ (pay sampleBobby sampleBobby 5 "x").1 = (sampleBobby, sampleBobby) :=
  ⟨by rfl, pay_error_no_mutation sampleBobby sampleBobby 5 "x" .selfPayment (by rfl)⟩

/-- C10: `create_user` is atomic with respect to the registry: whenever it
returns an error (duplicate username, invalid username, or invalid card
number), the registry is returned unchanged — registration is the final
statement, so a user whose card attachment fails is never registered. -/
theorem create_user_atomic_registry (users : Registry) (username : String)
    (b : ℚ) (cc : Option String) (e : Err)
    (h : (create_user users username b cc).2 = .error e) :
    (create_user users username b cc).1 = users := by
  rw [create_user] at h ⊢
  by_cases h1 : users.any (fun kv => kv.1 = username)
  · rw [if_pos h1]
  · rw [if_neg h1] at h ⊢
    cases hmk : mkUser username with
    | error e2 => simp only [hmk]
    | ok u =>
      simp only [hmk] at h ⊢
      by_cases h3 : optStrTruthy cc = true
      · simp only [h3, if_true] at h ⊢
        cases hac : add_credit_card (add_to_balance u b) (cc.getD "") with
        | mk u2 res =>
          simp only [hac] at h ⊢
          cases res with
          | error e2 => rfl
          | ok v => simp at h
      · simp only [h3, if_false] at h
        simp at h

/-- C10 witness: creating a user with an invalid card number fails and
leaves the empty registry empty — the user is never registered. -/
theorem create_user_atomic_registry_witness :
    (create_user [] "Bobby" 5 (some "123")).2 = .error .invalidCard
    ∧ (create_user [] "Bobby" 5 (some "123")).1 = [] :=
  ⟨by rfl, create_user_atomic_registry [] "Bobby" 5 (some "123") .invalidCard (by rfl)⟩

/-- C5 (code bug): the source regex raw string `r"^[A-Za-z0-9_\\-]{4,15}$"`
double-escapes the hyphen, placing a literal backslash in the character
class, so `_is_valid_username` accepts the five-character string `ab\cd`,
which the spec pattern `^[A-Za-z0-9_-]{4,15}$` (letters, digits,
underscore, hyphen only) rejects. -/
theorem username_validator_accepts_backslash :
    is_valid_username "ab\\cd" = true
    ∧ spec_is_valid_username "ab\\cd" = false := by
  constructor <;> rfl

/-- C1: with a valid target and positive amount, `pay` funds from balance
when `balance >= amount`; otherwise from the card when one is set (any
stored card is a nonempty string, which the hypothesis `hcc` records, so
Python truthiness agrees with `is not None`); otherwise it fails with the
insufficient-funds error and returns the pair unchanged. -/
theorem pay_funding_source_resolution (a t : User) (m : ℚ) (n : String)
    (hu : a.username ≠ t.username) (hm : 0 < m)
    (hcc : a.credit_card_number ≠ some "") :
    (a.balance ≥ m →
      pay a t m n
        = ((pay_with_balance a t m n).1, .ok (pay_with_balance a t m n).2))
    ∧ (¬ a.balance ≥ m → a.credit_card_number ≠ none →
      pay a t m n
        = ((pay_with_card a t m n).1, .ok (pay_with_card a t m n).2))
    ∧ (¬ a.balance ≥ m → a.credit_card_number = none →
      pay a t m n = ((a, t), .error .insufficientFunds)) := by
  have hAmt : ¬ m ≤ 0 := not_le.mpr hm
  refine ⟨fun hb => ?_, fun hb hc => ?_, fun hb hc => ?_⟩
  · rw [pay, if_neg hu, if_neg hAmt, if_pos hb]
  · have htr : optStrTruthy a.credit_card_number = true := by
      cases hcase : a.credit_card_number with
      | none => exact absurd hcase hc
      | some s =>
          refine optStrTruthy_some_of_ne fun he => hcc ?_
          rw [hcase, he]
    rw [pay, if_neg hu, if_neg hAmt, if_neg hb, if_pos htr]
  · have htr : ¬ optStrTruthy a.credit_card_number = true := by
      rw [hc]
      simp [optStrTruthy]
    rw [pay, if_neg hu, if_neg hAmt, if_neg hb, if_neg htr]

/-- C1 witness: at the test fixture Bobby/Carol with amount 5 the three
branches of the funding resolution are instantiated. -/
theorem pay_funding_source_resolution_witness :
    (sampleBobby.balance ≥ 5 →
      pay sampleBobby sampleCarol 5 "x"
        = ((pay_with_balance sampleBobby sampleCarol 5 "x").1,
           .ok (pay_with_balance sampleBobby sampleCarol 5 "x").2))
    ∧ (¬ sampleBobby.balance ≥ 5 → sampleBobby.credit_card_number ≠ none →
      pay sampleBobby sampleCarol 5 "x"
        = ((pay_with_card sampleBobby sampleCarol 5 "x").1,
           .ok (pay_with_card sampleBobby sampleCarol 5 "x").2))
    ∧ (¬ sampleBobby.balance ≥ 5 → sampleBobby.credit_card_number = none →
      pay sampleBobby sampleCarol 5 "x" = ((sampleBobby, sampleCarol), .error .insufficientFunds)) :=
  pay_funding_source_resolution sampleBobby sampleCarol 5 "x"
    (by decide) (by norm_num) (by decide)

/-- C2: a balance-funded payment between users with distinct usernames
conserves the total of the two balances: the actor loses exactly the
amount and the target gains exactly the amount. -/
theorem balance_payment_conserves_total (a t : User) (m : ℚ) (n : String)
    (hu : a.username ≠ t.username) (hm : 0 < m) (hb : a.balance ≥ m) :
    ∃ p, (pay a t m n).2 = .ok p
      ∧ (pay a t m n).1.1.balance + (pay a t m n).1.2.balance
          = a.balance + t.balance
      ∧ (pay a t m n).1.1.balance = a.balance - m
      ∧ (pay a t m n).1.2.balance = t.balance + m := by
  have hAmt : ¬ m ≤ 0 := not_le.mpr hm
  rw [pay, if_neg hu, if_neg hAmt, if_pos hb]
  refine ⟨(pay_with_balance a t m n).2, rfl, ?_, ?_, ?_⟩ <;>
    simp [pay_with_balance, add_to_balance]

/-- C2 witness: Bobby (balance 5) pays Carol (balance 10) an amount of 5
from balance; the pair total stays 15. -/
theorem balance_payment_conserves_total_witness :
    ∃ p, (pay sampleBobby sampleCarol 5 "Coffee").2 = .ok p
      ∧ (pay sampleBobby sampleCarol 5 "Coffee").1.1.balance
          + (pay sampleBobby sampleCarol 5 "Coffee").1.2.balance
          = sampleBobby.balance + sampleCarol.balance
      ∧ (pay sampleBobby sampleCarol 5 "Coffee").1.1.balance = sampleBobby.balance - 5
      ∧ (pay sampleBobby sampleCarol 5 "Coffee").1.2.balance = sampleCarol.balance + 5 :=
  balance_payment_conserves_total sampleBobby sampleCarol 5 "Coffee"
    (by decide) (by norm_num) (by norm_num [sampleBobby])

/-- C3: a card-funded payment (actor short of balance, nonempty card set)
credits the target with exactly the amount and leaves the actor balance
untouched. -/
theorem card_payment_credits_target_only (a t : User) (m : ℚ) (n : String)
    (hu : a.username ≠ t.username) (hm : 0 < m) (hb : ¬ a.balance ≥ m)
    (s : String) (hcs : a.credit_card_number = some s) (hs : s ≠ "") :
    ∃ p, (pay a t m n).2 = .ok p
      ∧ (pay a t m n).1.2.balance = t.balance + m
      ∧ (pay a t m n).1.1.balance = a.balance := by
  have hAmt : ¬ m ≤ 0 := not_le.mpr hm
  have htr : optStrTruthy a.credit_card_number = true := by
    rw [hcs]
    exact optStrTruthy_some_of_ne hs
  have h2 : t.username ≠ a.username := Ne.symm hu
  rw [pay, if_neg hu, if_neg hAmt, if_neg hb, if_pos htr]
  refine ⟨(pay_with_card a t m n).2, rfl, ?_, ?_⟩
  · simp [pay_with_card, add_to_balance, h2]
  · simp [pay_with_card, add_to_balance]

/-- C3 witness: Carol (balance 10, card on file) pays Bobby 15; Bobby
gains 15 and Carol's balance stays 10. -/
theorem card_payment_credits_target_only_witness :
    ∃ p, (pay sampleCarol sampleBobby 15 "Lunch").2 = .ok p
      ∧ (pay sampleCarol sampleBobby 15 "Lunch").1.2.balance = sampleBobby.balance + 15
      ∧ (pay sampleCarol sampleBobby 15 "Lunch").1.1.balance = sampleCarol.balance :=
  card_payment_credits_target_only sampleCarol sampleBobby 15 "Lunch"
    (by decide) (by norm_num) (by norm_num [sampleCarol])
    "4242424242424242" (by rfl) (by decide)

/-- C7: `add_friend` on a pair of distinct, not-yet-friended users inserts
exactly one symmetric membership and appends the friendship message once
to each feed, and a second call — in either direction — changes nothing. -/
theorem add_friend_idempotent (a b : User)
    (_hu : a.username ≠ b.username) (hf : b.username ∉ a.friends)
    (hfa : friendMessage a b ∉ a.activity_feed)
    (hfb : friendMessage a b ∉ b.activity_feed) :
    add_friend (add_friend a b).1 (add_friend a b).2 = add_friend a b
    ∧ add_friend (add_friend a b).2 (add_friend a b).1
        = ((add_friend a b).2, (add_friend a b).1)
    ∧ (add_friend a b).1.friends = insert b.username a.friends
    ∧ (add_friend a b).2.friends = insert a.username b.friends
    ∧ b.username ∈ (add_friend a b).1.friends
    ∧ a.username ∈ (add_friend a b).2.friends
    ∧ (add_friend a b).1.activity_feed.count (friendMessage a b) = 1
    ∧ (add_friend a b).2.activity_feed.count (friendMessage a b) = 1 := by
  have h2 : b.username ∈ insert b.username a.friends := Finset.mem_insert_self _ _
  have h3 : a.username ∈ insert a.username b.friends := Finset.mem_insert_self _ _
  refine ⟨?_, ?_, ?_, ?_, ?_, ?_, ?_, ?_⟩ <;>
    simp [add_friend, hf, h2, h3, List.count_append, List.count_singleton,
          List.count_eq_zero.mpr hfa, List.count_eq_zero.mpr hfb]

/-- C7 witness: Bobby and Carol, initially strangers with empty feeds,
friend each other; the second call in either direction is a no-op and the
message and membership occur exactly once. -/
theorem add_friend_idempotent_witness :
    add_friend (add_friend sampleBobby sampleCarol).1 (add_friend sampleBobby sampleCarol).2
        = add_friend sampleBobby sampleCarol
    ∧ add_friend (add_friend sampleBobby sampleCarol).2 (add_friend sampleBobby sampleCarol).1
        = ((add_friend sampleBobby sampleCarol).2, (add_friend sampleBobby sampleCarol).1)
    ∧ (add_friend sampleBobby sampleCarol).1.friends
        = insert sampleCarol.username sampleBobby.friends
    ∧ (add_friend sampleBobby sampleCarol).2.friends
        = insert sampleBobby.username sampleCarol.friends
    ∧ sampleCarol.username ∈ (add_friend sampleBobby sampleCarol).1.friends
    ∧ sampleBobby.username ∈ (add_friend sampleBobby sampleCarol).2.friends
    ∧ (add_friend sampleBobby sampleCarol).1.activity_feed.count
        (friendMessage sampleBobby sampleCarol) = 1
    ∧ (add_friend sampleBobby sampleCarol).2.activity_feed.count
        (friendMessage sampleBobby sampleCarol) = 1 :=
  add_friend_idempotent sampleBobby sampleCarol
    (by decide) (by decide) (by decide) (by decide)

/-- C8: a set credit card never changes: `add_credit_card` on a user whose
card is set fails with the duplicate-card error before ever checking the
new number (so the first card is retained even when the second number is
invalid), and balance updates, friendships and payments — on either side —
leave the card field alone. -/
theorem credit_card_never_changes (u t : User) (c : String) (m : ℚ)
    (num note : String) (hc : u.credit_card_number = some c) :
    add_credit_card u num = (u, .error .duplicateCard)
    ∧ (add_to_balance u m).credit_card_number = some c
    ∧ (add_friend u t).1.credit_card_number = some c
    ∧ (add_friend t u).2.credit_card_number = some c
    ∧ (pay u t m note).1.1.credit_card_number = some c
    ∧ (pay t u m note).1.2.credit_card_number = some c := by
  refine ⟨?_, hc, ?_, ?_, ?_, ?_⟩
  · rw [add_credit_card, hc]
  · rw [add_friend]
    split_ifs <;> simp [hc]
  · rw [add_friend]
    split_ifs <;> simp [hc]
  · rw [pay]
    split_ifs <;> simp only [pay_with_balance, pay_with_card, add_to_balance] <;>
      (try split_ifs) <;> simp [hc]
  · rw [pay]
    split_ifs <;> simp only [pay_with_balance, pay_with_card, add_to_balance] <;>
      (try split_ifs) <;> simp [hc]

/-- C8 witness: Bobby already holds the first allow-listed card; adding an
(invalid) second card fails with the duplicate-card error and every other
operation leaves his card in place. -/
theorem credit_card_never_changes_witness :
    add_credit_card sampleBobby "bad" = (sampleBobby, .error .duplicateCard)
    ∧ (add_to_balance sampleBobby 1).credit_card_number = some "4111111111111111"
    ∧ (add_friend sampleBobby sampleCarol).1.credit_card_number = some "4111111111111111"
    ∧ (add_friend sampleCarol sampleBobby).2.credit_card_number = some "4111111111111111"
    ∧ (pay sampleBobby sampleCarol 1 "x").1.1.credit_card_number = some "4111111111111111"
    ∧ (pay sampleCarol sampleBobby 1 "x").1.2.credit_card_number = some "4111111111111111" :=
  credit_card_never_changes sampleBobby sampleCarol "4111111111111111" 1 "bad" "x" (by rfl)

/-- C9: every successful payment (balance or card funded) appends one and
the same rendered string — actor paid target dollar-amount for note, the
amount with exactly two decimal digits — to the end of both feeds, which
`retrieve_feed` returns in insertion order. -/
theorem payment_feed_rendering (a t : User) (m : ℚ) (n : String)
    (hu : a.username ≠ t.username) (hm : 0 < m)
    (hfund : a.balance ≥ m ∨ optStrTruthy a.credit_card_number = true) :
    ∃ p, (pay a t m n).2 = .ok p
      ∧ paymentStr p
          = a.username ++ " paid " ++ t.username ++ " $"
            ++ formatTwoDec m ++ " for " ++ n
      ∧ retrieve_feed (pay a t m n).1.1 = retrieve_feed a ++ [paymentStr p]
      ∧ retrieve_feed (pay a t m n).1.2 = retrieve_feed t ++ [paymentStr p]
      ∧ ∃ ip frac, formatTwoDec m = ip ++ "." ++ frac
          ∧ frac.length = 2 ∧ frac.data.all Char.isDigit = true := by
  have hAmt : ¬ m ≤ 0 := not_le.mpr hm
  have hfrac : ∃ ip frac, formatTwoDec m = ip ++ "." ++ frac
      ∧ frac.length = 2 ∧ frac.data.all Char.isDigit = true := by
    refine ⟨Nat.repr ((roundHalfEven (m * 100)).toNat / 100),
            pad2 ((roundHalfEven (m * 100)).toNat % 100), rfl, ?_, ?_⟩
    · exact (pad2_two_digit_chars _ (Nat.mod_lt _ (by norm_num))).1
    · exact (pad2_two_digit_chars _ (Nat.mod_lt _ (by norm_num))).2
  by_cases hb : a.balance ≥ m
  · rw [pay, if_neg hu, if_neg hAmt, if_pos hb]
    exact ⟨(pay_with_balance a t m n).2, rfl, rfl,
      by simp [pay_with_balance, retrieve_feed, add_to_balance],
      by simp [pay_with_balance, retrieve_feed, add_to_balance], hfrac⟩
  · have htr : optStrTruthy a.credit_card_number = true := hfund.resolve_left hb
    rw [pay, if_neg hu, if_neg hAmt, if_neg hb, if_pos htr]
    exact ⟨(pay_with_card a t m n).2, rfl, rfl,
      by simp [pay_with_card, retrieve_feed],
      by
        simp only [pay_with_card, retrieve_feed]
        split_ifs <;> rfl, hfrac⟩

/-- C9 witness: Bobby pays Carol 5 for Coffee from balance; both feeds end
with the same rendered string and the amount carries two decimals. -/
theorem payment_feed_rendering_witness :
    ∃ p, (pay sampleBobby sampleCarol 5 "Coffee").2 = .ok p
      ∧ paymentStr p
          = sampleBobby.username ++ " paid " ++ sampleCarol.username ++ " $"
            ++ formatTwoDec 5 ++ " for " ++ "Coffee"
      ∧ retrieve_feed (pay sampleBobby sampleCarol 5 "Coffee").1.1
          = retrieve_feed sampleBobby ++ [paymentStr p]
      ∧ retrieve_feed (pay sampleBobby sampleCarol 5 "Coffee").1.2
          = retrieve_feed sampleCarol ++ [paymentStr p]
      ∧ ∃ ip frac, formatTwoDec 5 = ip ++ "." ++ frac
          ∧ frac.length = 2 ∧ frac.data.all Char.isDigit = true :=
  payment_feed_rendering sampleBobby sampleCarol 5 "Coffee"
    (by decide) (by norm_num) (Or.inl (by norm_num [sampleBobby]))

end MiniVenmoSpec
